import Mathlib

/-!
Verification of the address-matching engine (`match_algo.py`, with the
`matchable_columns` table from `address_utils.py`).

Embedding conventions:
* Cell values of a pandas row are `Val`: a string, a number, or NaN
  (missing).  `Row` is an ordered association list from column name to
  value, mirroring a pandas `Series`; `Row.getD` is `Series.get(key, '')`.
* All decimal arithmetic of the source is represented exactly by scaled
  integers: weight-table entries are in ten-thousandths (`0.25 ↦ 2500`),
  per-field similarities are in hundredths (`fuzz.ratio`s integer result
  0..100), and match scores are in hundredths (`60.01 ↦ 6001`,
  `100.00 ↦ 10000`).  Python's `round` (ties to even) is `halfRoundEven`.
* `fuzz.ratio` of the fuzzywuzzy library is embedded as `fuzzScore` /
  `fuzzScoreV`, mirroring its guard decorators in order: the
  `check_for_equivalence` guard returns 100 whenever the two arguments
  compare equal — two empty strings or two equal non-strings included —
  before the `check_empty_string` guard, which then returns 0 when the
  first argument is empty (short-circuit) or both are strings and the
  second is empty; otherwise the body computes the banker-rounded value
  of `100 * 2*M/(len1+len2)` with `M` the length of a longest common
  subsequence (the indel similarity used by the library's scorer).
  Reaching `len` on a non-string (NaN) value raises, embedded as
  `Except`.
* Fallible Python code is embedded in `Except Unit`; the `try/except`
  of `identify_matches` becomes a `match` on that result.
-/

deriving instance DecidableEq for Except

namespace AddressMatcher

/-- A pandas cell value: a string, a numeric value, or NaN (missing). -/
inductive Val where
  | str (s : String)
  | num (n : ℤ)
  | nan
deriving DecidableEq

/-- Python `==` on cell values: NaN compares unequal to everything
(including itself), and values of different types compare unequal. -/
def pyEq : Val → Val → Bool
  | .str a, .str b => a == b
  | .num a, .num b => a == b
  | _, _ => false

/-- A pandas row (`Series`): ordered association list column ↦ value. -/
abbrev Row := List (String × Val)

/-- `Series.get(key, '')`: the value at `key`, or `''` when absent. -/
def Row.getD (r : Row) (key : String) : Val :=
  match r.find? (fun p => p.1 == key) with
  | some p => p.2
  | none => .str ""

/-- `df[cols]` row restriction: keep, in `cols` order, the columns of
`cols` that the row carries. -/
def Row.restrict (r : Row) (cols : List String) : Row :=
  cols.filterMap (fun c => (r.find? (fun p => p.1 == c)).map (fun p => (c, p.2)))

/-- Fuel-indexed longest-common-subsequence length (structurally
recursive so that the kernel can evaluate it). -/
def lcsAux : ℕ → List Char → List Char → ℕ
  | 0, _, _ => 0
  | _ + 1, [], _ => 0
  | _ + 1, _ :: _, [] => 0
  | fuel + 1, a :: as, b :: bs =>
    if a = b then lcsAux fuel as bs + 1
    else max (lcsAux fuel (a :: as) bs) (lcsAux fuel as (b :: bs))

/-- Longest-common-subsequence length of two strings. -/
def lcs (s1 s2 : String) : ℕ :=
  lcsAux (s1.data.length + s2.data.length) s1.data s2.data

/-- Python `round` of the nonnegative fraction `n / d`: round half to
even (banker's rounding). -/
def halfRoundEven (n d : ℕ) : ℕ :=
  if 2 * (n % d) < d then n / d
  else if d < 2 * (n % d) then n / d + 1
  else if (n / d) % 2 = 0 then n / d else n / d + 1

/-- `fuzz.ratio(s1, s2)` (integer 0..100) on two strings: 100 when they
are equal — two empty strings included (`check_for_equivalence`) — then
0 when either is empty (`check_empty_string`), else the rounded indel
similarity `100 * 2*M/(len1+len2)` with `M` the LCS length. -/
def fuzzScore (s1 s2 : String) : ℕ :=
  if s1 = s2 then 100
  else if s1.data.length = 0 ∨ s2.data.length = 0 then 0
  else halfRoundEven (200 * lcs s1 s2) (s1.data.length + s2.data.length)

/-- `fuzz.ratio` applied to two cell values: the `check_for_equivalence`
guard returns 100 for any two Python-equal arguments (equal non-strings
included); then `check_empty_string` evaluates `len(args[0])` first —
returning 0 for an empty first string whatever the second is, and
raising a TypeError (embedded as `Except.error`) when a non-string
reaches `len`. -/
def fuzzScoreV (v1 v2 : Val) : Except Unit ℕ :=
  if pyEq v1 v2 then .ok 100
  else
    match v1, v2 with
    | .str s1, .str s2 => .ok (fuzzScore s1 s2)
    | .str s1, _ => if s1 = "" then .ok 0 else .error ()
    | _, _ => .error ()

/-- `matchable_columns` of `address_utils.py`. -/
def matchable_columns : List String :=
  ["first_name", "middle_name", "middle_initial", "last_name", "full_name",
   "city", "state", "state_code", "country", "country_code", "zip",
   "zip_cleaned", "address_number", "street_name", "street_type",
   "unit_type", "unit_number"]

/-- `default_weights` of `match_algo.py`, in ten-thousandths, in the
source's (dict-insertion) order. -/
def default_weights : List (String × ℕ) :=
  [("last_name", 2500), ("unit_number", 1800), ("street_name", 1800),
   ("house_number", 1500), ("state", 500), ("first_name", 400),
   ("city", 300), ("street_type", 300), ("unit_type", 300)]

/-- `no_name_weights` of `match_algo.py`, in ten-thousandths. -/
def no_name_weights : List (String × ℕ) :=
  [("unit_number", 2381), ("street_name", 2381), ("house_number", 1905),
   ("state", 476), ("city", 476), ("street_type", 476), ("unit_type", 476)]

/-- `potential_match_score_threshold = 60`, in hundredths. -/
def potential_match_score_threshold : ℕ := 6000

/-- `confidence_levels` of `match_algo.py`, in source (dict-insertion)
order, minimum scores in hundredths. -/
def confidence_levels : List (String × ℕ) :=
  [("near-exact", 9000), ("high", 8000), ("medium", 7000),
   ("low", potential_match_score_threshold)]

/-- `exact_match_fields` of `calculate_match_score`. -/
def exact_match_fields : List String := ["street_type", "state", "unit_type"]

/-- Per-field similarity (in hundredths) of `calculate_match_score`:
exact equality for the `exact_match_fields`, `fuzz.ratio` otherwise. -/
def fieldSim (field : String) (sv av : Val) : Except Unit ℕ :=
  if field ∈ exact_match_fields then
    .ok (if pyEq sv av then 100 else 0)
  else
    fuzzScoreV sv av

/-- `calculate_match_score(shopify_row, amazon_row, weights)`: weighted
sum of the per-field similarities over the weight table, then the
house-number veto, then `round(total * 100, 2)`.  The returned score is
in hundredths (`100.00 ↦ 10000`); the accumulated `total` is in
millionths.  Raises (`Except.error`) exactly when the Python code
raises, i.e. when `fuzz.ratio` meets a non-string value. -/
def calculate_match_score (shopify_row amazon_row : Row)
    (weights : List (String × ℕ)) : Except Unit ℕ := do
  let total ← weights.foldlM (fun acc p => do
    let sim ← fieldSim p.1 (Row.getD shopify_row p.1) (Row.getD amazon_row p.1)
    pure (acc + p.2 * sim)) 0
  let house_num_score ← fuzzScoreV (Row.getD shopify_row "house_number")
    (Row.getD amazon_row "house_number")
  if house_num_score < 70 then
    pure 0
  else
    pure (halfRoundEven total 100)

/-- A row of the `matches` result of `identify_matches`. -/
structure Candidate where
  shopify_id : Val
  amazon_id : Val
  score : Option ℕ
  confidence_level : Option String
deriving DecidableEq

/-- The confidence-classification loop of `identify_matches`: first
level of the table whose minimum the score meets or exceeds. -/
def classify (score : ℕ) (levels : List (String × ℕ)) : Option String :=
  (levels.find? (fun p => decide (p.2 ≤ score))).map (fun p => p.1)

/-- `fields_to_remove` of the `no_name` branch. -/
def fields_to_remove : List String :=
  ["first_name", "middle_name", "middle_initial", "last_name", "full_name"]

/-- `filtered_columns` of `identify_matches`. -/
def filtered_cols (no_name : Bool) : List String :=
  if no_name then matchable_columns.filter (fun c => decide (c ∉ fields_to_remove))
  else matchable_columns

/-- `shopify_in[['shopify_id'] + filtered_columns]`. -/
def shopRestricted (shopify_in : List Row) (no_name : Bool) : List Row :=
  shopify_in.map (fun r => Row.restrict r ("shopify_id" :: filtered_cols no_name))

/-- `amazon_in[['amazon_id'] + filtered_columns]`. -/
def amazRestricted (amazon_in : List Row) (no_name : Bool) : List Row :=
  amazon_in.map (fun r => Row.restrict r ("amazon_id" :: filtered_cols no_name))

/-- De-duplication of a value list (Python `set` collapses equal
hashable values; NaN blocks are unobservable either way because the
equality filter below never selects them). -/
def dedupVals : List Val → List Val
  | [] => []
  | x :: xs => if x ∈ dedupVals xs then dedupVals xs else x :: dedupVals xs

/-- `set(shopify['zip_cleaned']).intersection(set(amazon['zip_cleaned']))`:
the zip values of the first frame that also occur in the second. -/
def zipCodes (shopify amazon : List Row) : List Val :=
  dedupVals ((shopify.map (fun r => Row.getD r "zip_cleaned")).filter
    (fun z => amazon.any (fun r => pyEq (Row.getD r "zip_cleaned") z)))

/-- `df[df['zip_cleaned'] == zip_code]`. -/
def block (rows : List Row) (z : Val) : List Row :=
  rows.filter (fun r => pyEq (Row.getD r "zip_cleaned") z)

/-- The per-pair body of the double loop of `identify_matches`: score the
pair, and either retain it (strictly above threshold, classified), drop
it, or — when scoring raises — record it with null score and level. -/
def score_pair (no_name : Bool) (threshold : ℕ) (levels : List (String × ℕ))
    (shopify_row amazon_row : Row) : Option Candidate :=
  match calculate_match_score shopify_row amazon_row
      (if no_name then no_name_weights else default_weights) with
  | .ok score =>
    if threshold < score then
      some ⟨Row.getD shopify_row "shopify_id", Row.getD amazon_row "amazon_id",
            some score, classify score levels⟩
    else none
  | .error _ =>
    some ⟨Row.getD shopify_row "shopify_id", Row.getD amazon_row "amazon_id",
          none, none⟩

/-- `identify_matches(shopify_in, amazon_in, no_name, threshold,
confidence_levels)`: restrict both frames to the id column plus the
matchable columns, block on shared `zip_cleaned` values, and run the
per-pair scoring over each block's cross product. -/
def identify_matches (shopify_in amazon_in : List Row) (no_name : Bool)
    (threshold : ℕ) (levels : List (String × ℕ)) : List Candidate :=
  let shopify := shopRestricted shopify_in no_name
  let amazon := amazRestricted amazon_in no_name
  (zipCodes shopify amazon).flatMap (fun z =>
    (block shopify z).flatMap (fun s =>
      (block amazon z).filterMap (fun a => score_pair no_name threshold levels s a)))

/-! ### The stitcher (`stitch_identified_data`)

pandas DataFrames are embedded as a column list plus a list of rows whose
positional index is their place in the list.  The merge embeddings assume
(as holds throughout this pipeline, where source columns are suffixed
before merging) that the two frames' non-key column sets are disjoint, so
no `_x`/`_y` collision suffixes arise. -/

/-- A pandas DataFrame: column names plus rows; a row's positional index
is its position in `rows`. -/
structure DF where
  cols : List String
  rows : List Row

/-- `df.drop(columns=cs)`, row part. -/
def Row.dropKeys (r : Row) (cs : List String) : Row :=
  r.filter (fun p => decide (p.1 ∉ cs))

/-- `df.add_suffix(suf)`, row part. -/
def Row.addSuffix (r : Row) (suf : String) : Row :=
  r.map (fun p => (p.1 ++ suf, p.2))

/-- `df.rename(columns={old: new})`, row part. -/
def Row.renameKey (r : Row) (o n : String) : Row :=
  r.map (fun p => if p.1 = o then (n, p.2) else p)

/-- `df.drop(columns=cs)`. -/
def DF.drop (df : DF) (cs : List String) : DF :=
  ⟨df.cols.filter (fun c => decide (c ∉ cs)), df.rows.map (fun r => Row.dropKeys r cs)⟩

/-- `df.add_suffix(suf)`. -/
def DF.addSuffix (df : DF) (suf : String) : DF :=
  ⟨df.cols.map (fun c => c ++ suf), df.rows.map (fun r => Row.addSuffix r suf)⟩

/-- `df.rename(columns={old: new})`. -/
def DF.renameCol (df : DF) (o n : String) : DF :=
  ⟨df.cols.map (fun c => if c = o then n else c),
   df.rows.map (fun r => Row.renameKey r o n)⟩

/-- `df[cs]` column selection of present columns. -/
def DF.restrictCols (df : DF) (cs : List String) : DF :=
  ⟨cs, df.rows.map (fun r => Row.restrict r cs)⟩

/-- `left.merge(right, on=key, how='left')`: per left row, all right rows
whose `key` value equals the left one (NaN-filled right columns when none
match). -/
def DF.mergeOn (l r : DF) (key : String) : DF :=
  ⟨l.cols ++ r.cols.filter (fun c => decide (c ≠ key)),
   l.rows.flatMap (fun lr =>
     match r.rows.filter (fun rr => pyEq (Row.getD rr key) (Row.getD lr key)) with
     | [] => [lr ++ (r.cols.filter (fun c => decide (c ≠ key))).map (fun c => (c, Val.nan))]
     | ms => ms.map (fun rr => lr ++ Row.dropKeys rr [key]))⟩

/-- `left.merge(right, left_on=leftKey, right_index=True, how='left')`:
the join key of the right frame is its positional index, not one of its
columns. -/
def DF.mergeOnIndex (l : DF) (r : DF) (leftKey : String) : DF :=
  ⟨l.cols ++ r.cols,
   l.rows.flatMap (fun lr =>
     match (r.rows.enum).filter (fun p => pyEq (Row.getD lr leftKey) (Val.num p.1)) with
     | [] => [lr ++ r.cols.map (fun c => (c, Val.nan))]
     | ms => ms.map (fun p => lr ++ p.2))⟩

/-- `df[cs]` with reordering (used for moving `score` to the front). -/
def DF.selectCols (df : DF) (cs : List String) : DF :=
  ⟨cs, df.rows.map (fun r => cs.map (fun c => (c, Row.getD r c)))⟩

/-- `pd.DataFrame(matches)`: one row per candidate, dict-key order. -/
def candRow (c : Candidate) : Row :=
  [("shopify_id", c.shopify_id), ("amazon_id", c.amazon_id),
   ("score", match c.score with | some q => Val.num q | none => Val.nan),
   ("confidence_level",
     match c.confidence_level with | some l => Val.str l | none => Val.nan)]

/-- The `matches` DataFrame fed to the stitcher. -/
def matchesDF (ms : List Candidate) : DF :=
  ⟨["shopify_id", "amazon_id", "score", "confidence_level"], ms.map candRow⟩

/-- `columns_to_drop` of `stitch_identified_data` (note: its `no_name`
branch keeps the name columns, the opposite of `identify_matches`). -/
def columns_to_drop (no_name : Bool) : List String :=
  if no_name then matchable_columns.filter (fun c => decide (c ∉ fields_to_remove))
  else matchable_columns

/-- `shopify_filtered` of `stitch_identified_data`. -/
def shopifyFiltered (shopify : DF) (no_name : Bool) : DF :=
  ((shopify.drop (columns_to_drop no_name)).addSuffix "_shopify").renameCol
    "shopify_id_shopify" "shopify_id"

/-- `amazon_filtered` of `stitch_identified_data`. -/
def amazonFiltered (amazon : DF) (no_name : Bool) : DF :=
  ((amazon.drop (columns_to_drop no_name)).addSuffix "_amazon").renameCol
    "amazon_id_amazon" "amazon_id"

/-- `shopify_addy` of `stitch_identified_data`: the matchable columns of
the shopify frame, suffixed, keyed by the frame's positional index. -/
def shopifyAddy (shopify : DF) : DF :=
  (shopify.restrictCols matchable_columns).addSuffix "_addy_token"

/-- `stitch_identified_data(shopify, amazon, matches, no_name)`: three
left merges, then `score` moved to the leading column. -/
def stitch_identified_data (shopify amazon : DF) (ms : List Candidate)
    (no_name : Bool) : DF :=
  let merged1 := (matchesDF ms).mergeOn (shopifyFiltered shopify no_name) "shopify_id"
  let merged2 := merged1.mergeOn (amazonFiltered amazon no_name) "amazon_id"
  let merged3 := merged2.mergeOnIndex (shopifyAddy shopify) "shopify_id"
  merged3.selectCols ("score" :: merged3.cols.filter (fun c => decide (c ≠ "score")))

/-- Single-match left join step (closed form of `DF.mergeOn` when the
right key is unique): the first matching right row, or NaN fill. -/
def joinOneOn (lr : Row) (r : DF) (key : String) : Row :=
  match r.rows.find? (fun rr => pyEq (Row.getD rr key) (Row.getD lr key)) with
  | some rr => lr ++ Row.dropKeys rr [key]
  | none => lr ++ (r.cols.filter (fun c => decide (c ≠ key))).map (fun c => (c, Val.nan))

/-- Single-match index join step (closed form of `DF.mergeOnIndex`): the
right row whose positional index equals the left key value, or NaN fill. -/
def joinOneOnIndex (lr : Row) (r : DF) (leftKey : String) : Row :=
  match (r.rows.enum).find? (fun p => pyEq (Row.getD lr leftKey) (Val.num p.1)) with
  | some p => lr ++ p.2
  | none => lr ++ r.cols.map (fun c => (c, Val.nan))

/-- Column list of the fully merged frame before the final reorder. -/
def stitchedCols (shopify amazon : DF) (no_name : Bool) : List String :=
  (["shopify_id", "amazon_id", "score", "confidence_level"] ++
    (shopifyFiltered shopify no_name).cols.filter (fun c => decide (c ≠ "shopify_id")) ++
    (amazonFiltered amazon no_name).cols.filter (fun c => decide (c ≠ "amazon_id"))) ++
  (shopifyAddy shopify).cols

/-- Closed form of the single output row the stitcher produces for one
candidate (when each id matches at most one source row): the candidate's
columns, the id-joined filtered source rows, the **positionally** joined
tokenization columns, and `score` moved to the front. -/
def stitchRowFor (shopify amazon : DF) (no_name : Bool) (c : Candidate) : Row :=
  let r1 := joinOneOn (candRow c) (shopifyFiltered shopify no_name) "shopify_id"
  let r2 := joinOneOn r1 (amazonFiltered amazon no_name) "amazon_id"
  let r3 := joinOneOnIndex r2 (shopifyAddy shopify) "shopify_id"
  ("score" :: (stitchedCols shopify amazon no_name).filter (fun c => decide (c ≠ "score"))).map
    (fun col => (col, Row.getD r3 col))

/-- A right frame key identifies at most one row (used to state the
one-output-row-per-candidate property of the stitcher). -/
def AtMostOneKey (df : DF) (key : String) : Prop :=
  ∀ v : Val, (df.rows.filter (fun rr => pyEq (Row.getD rr key) v)).length ≤ 1

/-! ### Concrete records used by the individual claims -/

/-- A fully populated record carrying all nine weighted fields. -/
def perfectRecord : Row :=
  [("last_name", .str "SMITH"), ("unit_number", .str "7"),
   ("street_name", .str "MAIN"), ("house_number", .str "123"),
   ("state", .str "CA"), ("first_name", .str "JOHN"), ("city", .str "LA"),
   ("street_type", .str "ST"), ("unit_type", .str "APT")]

/-- Shopify-side record with `address_number` totally unlike the other
side's but identical `house_number`. -/
def addrShopRecord : Row :=
  [("address_number", .str "100"), ("last_name", .str "SMITH"),
   ("unit_number", .str "7"), ("street_name", .str "MAIN"),
   ("house_number", .str "123"), ("state", .str "CA"),
   ("first_name", .str "JOHN"), ("city", .str "LA"),
   ("street_type", .str "ST"), ("unit_type", .str "APT")]

/-- Amazon-side counterpart of `addrShopRecord`. -/
def addrAmazRecord : Row :=
  [("address_number", .str "999"), ("last_name", .str "SMITH"),
   ("unit_number", .str "7"), ("street_name", .str "MAIN"),
   ("house_number", .str "123"), ("state", .str "CA"),
   ("first_name", .str "JOHN"), ("city", .str "LA"),
   ("street_type", .str "ST"), ("unit_type", .str "APT")]

/-- Shopify frame whose single record has an empty `zip_cleaned` and a
NaN name cell (so that scoring this record raises). -/
def emptyZipShopFrame : List Row :=
  [[("shopify_id", .str "S1"), ("zip_cleaned", .str ""), ("last_name", Val.nan)]]

/-- Amazon frame whose single record has an empty `zip_cleaned`. -/
def emptyZipAmazFrame : List Row :=
  [[("amazon_id", .str "A1"), ("zip_cleaned", .str "")]]

/-- Shopify row scoring exactly 60.00 against `boundaryAmazRow60`:
matching last name, unit and house numbers, half-similar first name, and
one-sided (empty-vs-nonempty) or mismatched remaining fields. -/
def boundaryShopRow60 : Row :=
  [("shopify_id", .str "S"), ("zip_cleaned", .str "10001"),
   ("last_name", .str "SMITH"), ("unit_number", .str "7"),
   ("house_number", .str "123"), ("first_name", .str "AB"),
   ("state", .str "CA"), ("street_type", .str "X"),
   ("unit_type", .str "A"), ("street_name", .str "QQ")]

/-- Amazon row scoring exactly 60.00 against `boundaryShopRow60`. -/
def boundaryAmazRow60 : Row :=
  [("amazon_id", .str "A"), ("zip_cleaned", .str "10001"),
   ("last_name", .str "SMITH"), ("unit_number", .str "7"),
   ("house_number", .str "123"), ("first_name", .str "AC"),
   ("state", .str "NY"), ("street_type", .str "Y"),
   ("unit_type", .str "B"), ("city", .str "ZZ")]

/-- Shopify row scoring exactly 60.01 against `boundaryAmazRow6001`. -/
def boundaryShopRow6001 : Row :=
  [("shopify_id", .str "S"), ("zip_cleaned", .str "10001"),
   ("last_name", .str "SMITH"), ("unit_number", .str "7"),
   ("house_number", .str "123"), ("city", .str "AB"),
   ("first_name", .str "Q"), ("state", .str "CA"),
   ("street_type", .str "X"), ("unit_type", .str "A"),
   ("street_name", .str "QQ")]

/-- Amazon row scoring exactly 60.01 against `boundaryShopRow6001`. -/
def boundaryAmazRow6001 : Row :=
  [("amazon_id", .str "A"), ("zip_cleaned", .str "10001"),
   ("last_name", .str "SMITH"), ("unit_number", .str "7"),
   ("house_number", .str "123"), ("city", .str "A"),
   ("first_name", .str "R"), ("state", .str "NY"),
   ("street_type", .str "Y"), ("unit_type", .str "B")]

/-- Shopify frame with a single fully populated record (the pipeline
restriction leaves both `house_number` cells empty, which the library
scores as equal). -/
def identShopFrame : List Row :=
  [[("shopify_id", .str "S1"), ("zip_cleaned", .str "90210"),
    ("last_name", .str "SMITH"), ("first_name", .str "JOHN"),
    ("unit_number", .str "1"), ("street_name", .str "MAIN"),
    ("state", .str "CA"), ("city", .str "LA"),
    ("street_type", .str "ST"), ("unit_type", .str "APT"),
    ("address_number", .str "123")]]

/-- Amazon frame identical to `identShopFrame` up to the id column. -/
def identAmazFrame : List Row :=
  [[("amazon_id", .str "A1"), ("zip_cleaned", .str "90210"),
    ("last_name", .str "SMITH"), ("first_name", .str "JOHN"),
    ("unit_number", .str "1"), ("street_name", .str "MAIN"),
    ("state", .str "CA"), ("city", .str "LA"),
    ("street_type", .str "ST"), ("unit_type", .str "APT"),
    ("address_number", .str "123")]]

/-- Shopify-side record for the no-name comparison: similar but unequal
name fields, all other fields matching `nearNameAmazRecord`. -/
def nearNameShopRecord : Row :=
  [("first_name", .str "X"), ("middle_name", .str "M"),
   ("middle_initial", .str "M"), ("last_name", .str "AAAAAAAAAB"),
   ("full_name", .str "F"), ("city", .str "LA"), ("state", .str "CA"),
   ("state_code", .str "CA"), ("country", .str "US"),
   ("country_code", .str "US"), ("zip", .str "90210"),
   ("zip_cleaned", .str "90210"), ("address_number", .str "123"),
   ("street_name", .str "MAIN"), ("street_type", .str "ST"),
   ("unit_type", .str "APT"), ("unit_number", .str "1"),
   ("house_number", .str "123")]

/-- Amazon-side record for the no-name comparison: differs from
`nearNameShopRecord` in the name fields only. -/
def nearNameAmazRecord : Row :=
  [("first_name", .str "Y"), ("middle_name", .str "N"),
   ("middle_initial", .str "N"), ("last_name", .str "AAAAAAAAAC"),
   ("full_name", .str "G"), ("city", .str "LA"), ("state", .str "CA"),
   ("state_code", .str "CA"), ("country", .str "US"),
   ("country_code", .str "US"), ("zip", .str "90210"),
   ("zip_cleaned", .str "90210"), ("address_number", .str "123"),
   ("street_name", .str "MAIN"), ("street_type", .str "ST"),
   ("unit_type", .str "APT"), ("unit_number", .str "1"),
   ("house_number", .str "123")]

/-- Fully dissimilar-name counterpart pair used as the no-name witness. -/
def dissimShopRecord : Row :=
  [("first_name", .str "Q"), ("last_name", .str "X"), ("city", .str "LA"),
   ("state", .str "CA"), ("street_name", .str "MAIN"),
   ("street_type", .str "ST"), ("unit_type", .str "APT"),
   ("unit_number", .str "1"), ("house_number", .str "123")]

/-- See `dissimShopRecord`. -/
def dissimAmazRecord : Row :=
  [("first_name", .str "R"), ("last_name", .str "Y"), ("city", .str "LA"),
   ("state", .str "CA"), ("street_name", .str "MAIN"),
   ("street_type", .str "ST"), ("unit_type", .str "APT"),
   ("unit_number", .str "1"), ("house_number", .str "123")]

/-- Shopify frame for the stitcher counterexample: one record at
positional index 0 whose `shopify_id` is the integer 5. -/
def stitchShopFrame : DF :=
  ⟨["shopify_id", "email"] ++ matchable_columns,
   [[("shopify_id", Val.num 5), ("email", .str "x@y"),
     ("first_name", .str "JOHN"), ("middle_name", .str ""),
     ("middle_initial", .str ""), ("last_name", .str "SMITH"),
     ("full_name", .str "JOHN SMITH"), ("city", .str "LA"),
     ("state", .str "CA"), ("state_code", .str "CA"),
     ("country", .str "US"), ("country_code", .str "US"),
     ("zip", .str "90210"), ("zip_cleaned", .str "90210"),
     ("address_number", .str "123"), ("street_name", .str "MAIN"),
     ("street_type", .str "ST"), ("unit_type", .str "APT"),
     ("unit_number", .str "1")]]⟩

/-- Amazon frame for the stitcher counterexample. -/
def stitchAmazFrame : DF :=
  ⟨["amazon_id", "order_ref"] ++ matchable_columns,
   [[("amazon_id", Val.num 7), ("order_ref", .str "O1"),
     ("first_name", .str "JOHN"), ("middle_name", .str ""),
     ("middle_initial", .str ""), ("last_name", .str "SMITH"),
     ("full_name", .str "JOHN SMITH"), ("city", .str "LA"),
     ("state", .str "CA"), ("state_code", .str "CA"),
     ("country", .str "US"), ("country_code", .str "US"),
     ("zip", .str "90210"), ("zip_cleaned", .str "90210"),
     ("address_number", .str "123"), ("street_name", .str "MAIN"),
     ("street_type", .str "ST"), ("unit_type", .str "APT"),
     ("unit_number", .str "1")]]⟩

/-- The single candidate for the stitcher counterexample, referring to
the records above by their id columns. -/
def stitchCand : Candidate := ⟨Val.num 5, Val.num 7, some 8000, some "high"⟩

/-! ### Helper lemmas -/

/-- Every column name of a restricted row comes from the selection list. -/
theorem Row.fst_mem_of_mem_restrict {r : Row} {cols : List String}
    {p : String × Val} (h : p ∈ Row.restrict r cols) : p.1 ∈ cols := by
  rcases List.mem_filterMap.mp h with ⟨c, hc, hsome⟩
  rcases Option.map_eq_some'.mp hsome with ⟨q, _, hq⟩
  subst hq
  exact hc

/-- Reading a column outside the selection list from a restricted row
yields the empty-string default. -/
theorem Row.getD_restrict_not_mem {r : Row} {cols : List String} {key : String}
    (h : key ∉ cols) : Row.getD (Row.restrict r cols) key = .str "" := by
  unfold Row.getD
  have hnone : (Row.restrict r cols).find? (fun p => p.1 == key) = none := by
    apply List.find?_eq_none.mpr
    intro p hp
    simp only [beq_iff_eq]
    intro hpk
    exact h (hpk ▸ Row.fst_mem_of_mem_restrict hp)
  rw [hnone]

/-- If a row has no entry for `key`, neither does any restriction of it. -/
theorem Row.find?_restrict_eq_none {r : Row} {cols : List String} {key : String}
    (hf : r.find? (fun p => p.1 == key) = none) :
    (Row.restrict r cols).find? (fun p => p.1 == key) = none := by
  apply List.find?_eq_none.mpr
  intro p hp
  rcases List.mem_filterMap.mp hp with ⟨c, _, hsome⟩
  rcases Option.map_eq_some'.mp hsome with ⟨q, hq, hpq⟩
  subst hpq
  simp only [beq_iff_eq]
  intro hck
  subst hck
  rw [hf] at hq
  cases hq

/-- Reading a selected column from a restricted row yields the original
row's value for it. -/
theorem Row.getD_restrict_mem {r : Row} {cols : List String} {key : String}
    (h : key ∈ cols) : Row.getD (Row.restrict r cols) key = Row.getD r key := by
  induction cols with
  | nil => cases h
  | cons c cs ih =>
    cases hf : r.find? (fun p => p.1 == c) with
    | some p =>
      have hrw : Row.restrict r (c :: cs) = (c, p.2) :: Row.restrict r cs := by
        simp [Row.restrict, List.filterMap_cons, hf]
      by_cases hck : c = key
      · subst hck
        rw [hrw]
        unfold Row.getD
        rw [List.find?_cons_of_pos _ (by simp), hf]
      · have hmem : key ∈ cs := by
          rcases List.mem_cons.mp h with hk | hk
          · exact absurd hk.symm hck
          · exact hk
        rw [hrw]
        unfold Row.getD at ih ⊢
        rw [List.find?_cons_of_neg _ (by simp [hck])]
        exact ih hmem
    | none =>
      have hrw : Row.restrict r (c :: cs) = Row.restrict r cs := by
        simp [Row.restrict, List.filterMap_cons, hf]
      by_cases hck : c = key
      · subst hck
        rw [hrw]
        unfold Row.getD
        rw [Row.find?_restrict_eq_none hf, hf]
      · have hmem : key ∈ cs := by
          rcases List.mem_cons.mp h with hk | hk
          · exact absurd hk.symm hck
          · exact hk
        rw [hrw]
        exact ih hmem

/-- Unfolding membership in the result of `identify_matches` into the
block structure and the per-pair step. -/
theorem mem_identify_matches_iff {sin ain : List Row} {nn : Bool} {th : ℕ}
    {lv : List (String × ℕ)} {c : Candidate} :
    c ∈ identify_matches sin ain nn th lv ↔
      ∃ z ∈ zipCodes (shopRestricted sin nn) (amazRestricted ain nn),
        ∃ s ∈ block (shopRestricted sin nn) z,
          ∃ a ∈ block (amazRestricted ain nn) z,
            score_pair nn th lv s a = some c := by
  unfold identify_matches
  simp only [List.mem_flatMap, List.mem_filterMap]

/-- Rows of the restricted shopify frame never carry a `house_number`
column, hence read `''` for it. -/
theorem shopRestricted_house_empty {sin : List Row} {s : Row}
    (h : s ∈ shopRestricted sin false) : Row.getD s "house_number" = .str "" := by
  rcases List.mem_map.mp h with ⟨r, _, hr⟩
  subst hr
  exact Row.getD_restrict_not_mem (by decide)

/-- Rows of the restricted amazon frame never carry a `house_number`
column, hence read `''` for it. -/
theorem amazRestricted_house_empty {ain : List Row} {a : Row}
    (h : a ∈ amazRestricted ain false) : Row.getD a "house_number" = .str "" := by
  rcases List.mem_map.mp h with ⟨r, _, hr⟩
  subst hr
  exact Row.getD_restrict_not_mem (by decide)

/-- **C1 (counterexample).**  The claim's chain breaks at the empty-cell
veto: `fuzz.ratio('', '')` is 100 (the library's equivalence guard runs
before its empty-string guard), not below the 0.70 cut-off, so the veto
never fires on the restricted frames' missing `house_number` cells and
`identify_matches` does retain numeric-score candidates — two identical
records score 94.00, tier near-exact. -/
theorem C1_counterexample_numeric_retained :
    fuzzScore "" "" = 100 ∧
    ¬ (fuzzScore "" "" < 70) ∧
    identify_matches identShopFrame identAmazFrame false
      potential_match_score_threshold confidence_levels =
      [⟨.str "S1", .str "A1", some 9400, some "near-exact"⟩] := by
  decide

/-- **C1 (amended).**  In the default pipeline both frames are indeed
restricted to the id column plus `matchable_columns` — which contain
`address_number` but not `house_number` — so `calculate_match_score`
reads the empty string for both sides' `house_number` veto cells; but
`fuzz.ratio('', '') = 100`, so the house-number similarity of every
restricted pair is 1.0 ≥ 0.70, the veto never fires on that account,
and `identify_matches` can retain numeric-score candidates. -/
theorem C1_house_veto_never_fires :
    ("address_number" ∈ matchable_columns ∧ "house_number" ∉ matchable_columns) ∧
    fuzzScore "" "" = 100 ∧
    (∀ (sin ain : List Row) (s a : Row),
      s ∈ shopRestricted sin false → a ∈ amazRestricted ain false →
      fuzzScoreV (Row.getD s "house_number") (Row.getD a "house_number") =
        .ok 100) := by
  refine ⟨⟨by decide, by decide⟩, by decide, ?_⟩
  intro sin ain s a hs ha
  rw [shopRestricted_house_empty hs, amazRestricted_house_empty ha]
  decide

/-- Witness for C1: the veto similarity of a concrete restricted pair. -/
theorem C1_house_veto_never_fires_witness :
    (Row.restrict identShopFrame.headI ("shopify_id" :: filtered_cols false) ∈
        shopRestricted identShopFrame false ∧
      Row.restrict identAmazFrame.headI ("amazon_id" :: filtered_cols false) ∈
        amazRestricted identAmazFrame false) ∧
    fuzzScoreV
      (Row.getD (Row.restrict identShopFrame.headI
        ("shopify_id" :: filtered_cols false)) "house_number")
      (Row.getD (Row.restrict identAmazFrame.headI
        ("amazon_id" :: filtered_cols false)) "house_number") = .ok 100 := by
  refine ⟨⟨by decide, by decide⟩, ?_⟩
  exact C1_house_veto_never_fires.2.2 identShopFrame identAmazFrame _ _
    (by decide) (by decide)

/-- The LCS length is bounded by the first argument's length. -/
theorem lcsAux_le_left : ∀ (fuel : ℕ) (l1 l2 : List Char),
    lcsAux fuel l1 l2 ≤ l1.length := by
  intro fuel
  induction fuel with
  | zero => intro l1 l2; simp [lcsAux]
  | succ f ih =>
    intro l1 l2
    cases l1 with
    | nil => simp [lcsAux]
    | cons a as =>
      cases l2 with
      | nil => simp [lcsAux]
      | cons b bs =>
        simp only [lcsAux]
        split
        · have := ih as bs
          simp only [List.length_cons]
          omega
        · apply max_le
          · exact ih (a :: as) bs
          · have := ih as (b :: bs)
            simp only [List.length_cons]
            omega

/-- The LCS length is bounded by the second argument's length. -/
theorem lcsAux_le_right : ∀ (fuel : ℕ) (l1 l2 : List Char),
    lcsAux fuel l1 l2 ≤ l2.length := by
  intro fuel
  induction fuel with
  | zero => intro l1 l2; simp [lcsAux]
  | succ f ih =>
    intro l1 l2
    cases l1 with
    | nil => simp [lcsAux]
    | cons a as =>
      cases l2 with
      | nil => simp [lcsAux]
      | cons b bs =>
        simp only [lcsAux]
        split
        · have := ih as bs
          simp only [List.length_cons]
          omega
        · apply max_le
          · have := ih (a :: as) bs
            simp only [List.length_cons]
            omega
          · exact ih as (b :: bs)

/-- Banker's rounding of `n / d` never exceeds `k` when `n ≤ k * d`. -/
theorem halfRoundEven_le {n d k : ℕ} (hn : n ≤ k * d) (hd : 0 < d) :
    halfRoundEven n d ≤ k := by
  have hq : n / d ≤ k := by
    have h1 := Nat.div_le_div_right (c := d) hn
    rwa [Nat.mul_div_cancel _ hd] at h1
  have hcase : n / d < k ∨ (n / d = k ∧ n % d = 0) := by
    rcases lt_or_eq_of_le hq with h | h
    · exact Or.inl h
    · right
      refine ⟨h, ?_⟩
      have hdm := Nat.div_add_mod n d
      rw [h] at hdm
      have hc : d * k = k * d := Nat.mul_comm d k
      omega
  unfold halfRoundEven
  rcases hcase with h | ⟨h1, h2⟩ <;>
    · split
      · omega
      · split
        · omega
        · split <;> omega

/-- `fuzz.ratio` never exceeds 100. -/
theorem fuzzScore_le_100 (s1 s2 : String) : fuzzScore s1 s2 ≤ 100 := by
  unfold fuzzScore
  split
  · omega
  · split
    · omega
    · have h1 := lcsAux_le_left (s1.data.length + s2.data.length) s1.data s2.data
      have h2 := lcsAux_le_right (s1.data.length + s2.data.length) s1.data s2.data
      apply halfRoundEven_le
      · unfold lcs
        omega
      · omega

/-- `fuzz.ratio` of any string — the empty string included — with
itself is 100: the equivalence guard. -/
theorem fuzzScore_self (s : String) : fuzzScore s s = 100 := by
  unfold fuzzScore
  rw [if_pos rfl]

/-- **C2 (code bug).**  A pair of records agreeing exactly on every
weighted field — name, street, city, state, unit, and house number, all
nonempty — scores 94.00, not the 100.00 the specification (and the
code's own comment `Sum = 1.0`) promise: `default_weights` actually
sums to 0.94. -/
theorem C2_perfect_match_scores_9400 :
    calculate_match_score perfectRecord perfectRecord default_weights = .ok 9400 ∧
    (default_weights.map Prod.snd).sum = 9400 ∧ (9400 : ℕ) ≠ 10000 := by
  decide

/-- **C3 (code bug).**  The veto does not read `address_number`: a pair
whose `address_number` values are completely dissimilar ("100" vs "999",
similarity 0 < 0.70) but whose (pipeline-nonexistent) `house_number`
cells agree still scores 94.00 instead of the 0 demanded by the
spec's veto invariant. -/
theorem C3_veto_ignores_address_number :
    fuzzScore "100" "999" < 70 ∧
    Row.getD addrShopRecord "address_number" = .str "100" ∧
    Row.getD addrAmazRecord "address_number" = .str "999" ∧
    calculate_match_score addrShopRecord addrAmazRecord default_weights = .ok 9400 ∧
    (9400 : ℕ) ≠ 0 := by
  decide

/-- Two values equal (in the Python sense) to a third are equal to each
other. -/
theorem pyEq_trans_right {x y z : Val} (hx : pyEq x z = true)
    (hy : pyEq y z = true) : pyEq x y = true := by
  cases x <;> cases y <;> cases z <;> simp_all [pyEq]

/-- The candidate emitted by the per-pair step carries the two rows' id
cells. -/
theorem score_pair_ids {nn : Bool} {th : ℕ} {lv : List (String × ℕ)}
    {s a : Row} {c : Candidate} (h : score_pair nn th lv s a = some c) :
    c.shopify_id = Row.getD s "shopify_id" ∧
    c.amazon_id = Row.getD a "amazon_id" := by
  unfold score_pair at h
  split at h
  · split at h
    · cases h
      exact ⟨rfl, rfl⟩
    · cases h
  · cases h
    exact ⟨rfl, rfl⟩

/-- The id and zip columns survive the frame restriction in both weight
modes. -/
theorem zip_mem_shop_cols (nn : Bool) :
    "zip_cleaned" ∈ "shopify_id" :: filtered_cols nn := by
  cases nn <;> decide

/-- See `zip_mem_shop_cols`. -/
theorem zip_mem_amaz_cols (nn : Bool) :
    "zip_cleaned" ∈ "amazon_id" :: filtered_cols nn := by
  cases nn <;> decide

/-- **C4 (amended).**  Every candidate `identify_matches` emits — on the
numeric path or the error path — comes from one record of each input
frame whose `zip_cleaned` values are equal in the Python sense (both
strings, or both numbers, and equal; in particular never NaN/null).  The
original claim's further demand that the shared value be non-empty is
false: see the counterexample. -/
theorem C4_blocking_zip_equality :
    ∀ (sin ain : List Row) (nn : Bool) (th : ℕ) (lv : List (String × ℕ)),
      ∀ c ∈ identify_matches sin ain nn th lv,
        ∃ s ∈ sin, ∃ a ∈ ain,
          c.shopify_id = Row.getD s "shopify_id" ∧
          c.amazon_id = Row.getD a "amazon_id" ∧
          pyEq (Row.getD s "zip_cleaned") (Row.getD a "zip_cleaned") = true := by
  intro sin ain nn th lv c hc
  rcases mem_identify_matches_iff.mp hc with ⟨z, _, s, hs, a, ha, hpair⟩
  have hs1 := List.mem_filter.mp hs
  have ha1 := List.mem_filter.mp ha
  rcases List.mem_map.mp hs1.1 with ⟨s0, hs0, hs0eq⟩
  rcases List.mem_map.mp ha1.1 with ⟨a0, ha0, ha0eq⟩
  refine ⟨s0, hs0, a0, ha0, ?_, ?_, ?_⟩
  · rw [(score_pair_ids hpair).1, ← hs0eq]
    exact Row.getD_restrict_mem (List.mem_cons_self _ _)
  · rw [(score_pair_ids hpair).2, ← ha0eq]
    exact Row.getD_restrict_mem (List.mem_cons_self _ _)
  · have hzs : pyEq (Row.getD s "zip_cleaned") z = true := by
      simpa [block] using hs1.2
    have hza : pyEq (Row.getD a "zip_cleaned") z = true := by
      simpa [block] using ha1.2
    rw [← hs0eq] at hzs
    rw [← ha0eq] at hza
    rw [Row.getD_restrict_mem (zip_mem_shop_cols nn)] at hzs
    rw [Row.getD_restrict_mem (zip_mem_amaz_cols nn)] at hza
    exact pyEq_trans_right hzs hza

/-- Witness for C4: the theorem applied to a concrete run that emits a
candidate. -/
theorem C4_blocking_zip_equality_witness :
    (⟨.str "S1", .str "A1", none, none⟩ : Candidate) ∈
      identify_matches emptyZipShopFrame emptyZipAmazFrame false
        potential_match_score_threshold confidence_levels ∧
    (∃ s ∈ emptyZipShopFrame, ∃ a ∈ emptyZipAmazFrame,
      (⟨.str "S1", .str "A1", none, none⟩ : Candidate).shopify_id =
        Row.getD s "shopify_id" ∧
      (⟨.str "S1", .str "A1", none, none⟩ : Candidate).amazon_id =
        Row.getD a "amazon_id" ∧
      pyEq (Row.getD s "zip_cleaned") (Row.getD a "zip_cleaned") = true) := by
  refine ⟨by decide, ?_⟩
  exact C4_blocking_zip_equality emptyZipShopFrame emptyZipAmazFrame false
    potential_match_score_threshold confidence_levels
    ⟨.str "S1", .str "A1", none, none⟩ (by decide)

/-- **C4 (counterexample).**  Two records sharing the *empty*
`zip_cleaned` string do produce a candidate (here via the error path),
refuting the claim that empty blocking keys yield no pairs. -/
theorem C4_counterexample_empty_zip :
    Row.getD emptyZipShopFrame.headI "zip_cleaned" = .str "" ∧
    Row.getD emptyZipAmazFrame.headI "zip_cleaned" = .str "" ∧
    identify_matches emptyZipShopFrame emptyZipAmazFrame false
      potential_match_score_threshold confidence_levels =
      [⟨.str "S1", .str "A1", none, none⟩] := by
  decide

/-- **C5.**  Exact-match fields (`street_type`, `state`, `unit_type`)
score 1.0 exactly on string equality — empty-vs-empty included,
empty-vs-nonempty 0.0; every other weighted field scores the normalized
indel ratio in [0,1] (here in hundredths, in [0,100]), where identical
strings — two empty strings included, via the library's equivalence
guard — score 1.0.  The scorer is total over all string pairs. -/
theorem C5_field_similarity :
    (∀ f ∈ exact_match_fields, ∀ a b : String,
      fieldSim f (.str a) (.str b) = .ok (if a = b then 100 else 0)) ∧
    (∀ f : String, f ∉ exact_match_fields → ∀ a b : String,
      fieldSim f (.str a) (.str b) = .ok (fuzzScore a b) ∧
      fuzzScore a b ≤ 100 ∧
      (a = b → fuzzScore a b = 100)) := by
  constructor
  · intro f hf a b
    unfold fieldSim
    rw [if_pos hf]
    simp [pyEq]
  · intro f hf a b
    refine ⟨?_, fuzzScore_le_100 a b, ?_⟩
    · unfold fieldSim
      rw [if_neg hf]
      unfold fuzzScoreV
      by_cases hab : a = b
      · subst hab
        rw [if_pos (by simp [pyEq]), fuzzScore_self]
      · rw [if_neg (by simp [pyEq, hab])]
    · intro hab
      subst hab
      exact fuzzScore_self a

/-- Witness for C5: both branches of the theorem at concrete fields and
values, among them two empty strings scoring 1.0. -/
theorem C5_field_similarity_witness :
    ("state" ∈ exact_match_fields ∧
      fieldSim "state" (.str "CA") (.str "CA") = .ok 100) ∧
    ("city" ∉ exact_match_fields ∧
      fieldSim "city" (.str "LA") (.str "LA") = .ok (fuzzScore "LA" "LA") ∧
      fuzzScore "LA" "LA" = 100 ∧ fuzzScore "" "" = 100) := by
  refine ⟨⟨by decide, ?_⟩, by decide, ?_, ?_, ?_⟩
  · simpa using C5_field_similarity.1 "state" (by decide) "CA" "CA"
  · exact (C5_field_similarity.2 "city" (by decide) "LA" "LA").1
  · exact (C5_field_similarity.2 "city" (by decide) "LA" "LA").2.2 rfl
  · exact (C5_field_similarity.2 "city" (by decide) "" "").2.2 rfl

/-- A numeric-score candidate from the per-pair step is strictly above
the threshold. -/
theorem score_pair_score_gt {nn : Bool} {th : ℕ} {lv : List (String × ℕ)}
    {s a : Row} {c : Candidate} (h : score_pair nn th lv s a = some c) :
    ∀ q, c.score = some q → th < q := by
  intro q hq
  unfold score_pair at h
  split at h
  · rename_i score heq
    split at h
    · rename_i hth
      cases h
      cases hq
      exact hth
    · cases h
  · cases h
    cases hq

/-- **C6.**  Retention is strictly greater-than: every numeric-score
candidate `identify_matches` emits exceeds the threshold; a pair
computing any score `q` is retained at the per-pair step (with that
score) iff `threshold < q`; and with the default threshold 60 a
concrete pair scoring exactly 60.00 is excluded by `identify_matches`
while a pair scoring 60.01 is included, classified `low`. -/
theorem C6_threshold_strictly_greater :
    (∀ (sin ain : List Row) (nn : Bool) (th : ℕ) (lv : List (String × ℕ)),
      ∀ c ∈ identify_matches sin ain nn th lv, ∀ q, c.score = some q → th < q) ∧
    (∀ (s a : Row) (th q : ℕ),
      calculate_match_score s a default_weights = .ok q →
      ((∃ c, score_pair false th confidence_levels s a = some c ∧
          c.score = some q) ↔ th < q)) ∧
    (calculate_match_score boundaryShopRow60 boundaryAmazRow60 default_weights =
        .ok 6000 ∧
      score_pair false potential_match_score_threshold confidence_levels
        boundaryShopRow60 boundaryAmazRow60 = none ∧
      identify_matches [boundaryShopRow60] [boundaryAmazRow60] false
        potential_match_score_threshold confidence_levels = []) ∧
    (calculate_match_score boundaryShopRow6001 boundaryAmazRow6001 default_weights =
        .ok 6001 ∧
      score_pair false potential_match_score_threshold confidence_levels
        boundaryShopRow6001 boundaryAmazRow6001 =
        some ⟨.str "S", .str "A", some 6001, some "low"⟩ ∧
      identify_matches [boundaryShopRow6001] [boundaryAmazRow6001] false
        potential_match_score_threshold confidence_levels =
        [⟨.str "S", .str "A", some 6001, some "low"⟩]) := by
  refine ⟨?_, ?_, by decide, by decide⟩
  · intro sin ain nn th lv c hc q hq
    rcases mem_identify_matches_iff.mp hc with ⟨z, _, s, _, a, _, hpair⟩
    exact score_pair_score_gt hpair q hq
  · intro s a th q hcalc
    constructor
    · rintro ⟨c, hc, hs⟩
      exact score_pair_score_gt hc q hs
    · intro hth
      refine ⟨⟨Row.getD s "shopify_id", Row.getD a "amazon_id", some q,
        classify q confidence_levels⟩, ?_, rfl⟩
      simp [score_pair, hcalc, hth]

/-- Witness for C6: at the 60.01 pair with threshold 60 the retention
predicate holds. -/
theorem C6_threshold_strictly_greater_witness :
    calculate_match_score boundaryShopRow6001 boundaryAmazRow6001 default_weights =
      .ok 6001 ∧
    (∃ c, score_pair false 6000 confidence_levels boundaryShopRow6001
        boundaryAmazRow6001 = some c ∧ c.score = some 6001) := by
  refine ⟨by decide, ?_⟩
  exact (C6_threshold_strictly_greater.2.1 boundaryShopRow6001 boundaryAmazRow6001
    6000 6001 (by decide)).mpr (by decide)

/-- **C7.**  The classification table is exactly the four descending
tiers near-exact ≥ 90, high ≥ 80, medium ≥ 70, low ≥ 60 (scores in
hundredths); it is scanned from the highest minimum down and assigns the
first tier whose minimum the score meets or exceeds; 90.00 classifies as
near-exact and 89.99 as high. -/
theorem C7_confidence_tier_table :
    confidence_levels =
      [("near-exact", 9000), ("high", 8000), ("medium", 7000), ("low", 6000)] ∧
    confidence_levels.Pairwise (fun p q => q.2 < p.2) ∧
    classify 9000 confidence_levels = some "near-exact" ∧
    classify 8999 confidence_levels = some "high" ∧
    (∀ q, 9000 ≤ q → classify q confidence_levels = some "near-exact") ∧
    (∀ q, 8000 ≤ q → q < 9000 → classify q confidence_levels = some "high") ∧
    (∀ q, 7000 ≤ q → q < 8000 → classify q confidence_levels = some "medium") ∧
    (∀ q, 6000 ≤ q → q < 7000 → classify q confidence_levels = some "low") := by
  refine ⟨by decide, by decide, by decide, by decide, ?_, ?_, ?_, ?_⟩
  · intro q h
    have e1 : decide (9000 ≤ q) = true := decide_eq_true h
    simp [classify, confidence_levels, List.find?_cons, e1]
  · intro q h1 h2
    have e1 : decide (9000 ≤ q) = false := decide_eq_false (by omega)
    have e2 : decide (8000 ≤ q) = true := decide_eq_true h1
    simp [classify, confidence_levels, List.find?_cons, e1, e2]
  · intro q h1 h2
    have e1 : decide (9000 ≤ q) = false := decide_eq_false (by omega)
    have e2 : decide (8000 ≤ q) = false := decide_eq_false (by omega)
    have e3 : decide (7000 ≤ q) = true := decide_eq_true h1
    simp [classify, confidence_levels, List.find?_cons, e1, e2, e3]
  · intro q h1 h2
    have e1 : decide (9000 ≤ q) = false := decide_eq_false (by omega)
    have e2 : decide (8000 ≤ q) = false := decide_eq_false (by omega)
    have e3 : decide (7000 ≤ q) = false := decide_eq_false (by omega)
    have e4 : decide (6000 ≤ q) = true := decide_eq_true h1
    simp [classify, confidence_levels, potential_match_score_threshold,
      List.find?_cons, e1, e2, e3, e4]

/-- Witness for C7: one score strictly inside each tier. -/
theorem C7_confidence_tier_table_witness :
    ((9000 ≤ 9500) ∧ classify 9500 confidence_levels = some "near-exact") ∧
    ((8000 ≤ 8500 ∧ 8500 < 9000) ∧ classify 8500 confidence_levels = some "high") ∧
    ((7000 ≤ 7500 ∧ 7500 < 8000) ∧ classify 7500 confidence_levels = some "medium") ∧
    ((6000 ≤ 6500 ∧ 6500 < 7000) ∧ classify 6500 confidence_levels = some "low") := by
  refine ⟨⟨by decide, ?_⟩, ⟨by decide, ?_⟩, ⟨by decide, ?_⟩, ⟨by decide, ?_⟩⟩
  · exact C7_confidence_tier_table.2.2.2.2.1 9500 (by decide)
  · exact C7_confidence_tier_table.2.2.2.2.2.1 8500 (by decide) (by decide)
  · exact C7_confidence_tier_table.2.2.2.2.2.2.1 7500 (by decide) (by decide)
  · exact C7_confidence_tier_table.2.2.2.2.2.2.2 6500 (by decide) (by decide)

/-- **C8.**  A pair whose scoring raises is caught locally: that single
candidate is recorded with null score and null tier in the (total,
always-returned) result set, and the rest of the batch is unaffected. -/
theorem C8_per_pair_failure_recorded :
    ∀ (sin ain : List Row) (z : Val) (s a : Row) (e : Unit),
      z ∈ zipCodes (shopRestricted sin false) (amazRestricted ain false) →
      s ∈ block (shopRestricted sin false) z →
      a ∈ block (amazRestricted ain false) z →
      calculate_match_score s a default_weights = .error e →
      (⟨Row.getD s "shopify_id", Row.getD a "amazon_id", none, none⟩ : Candidate) ∈
        identify_matches sin ain false potential_match_score_threshold
          confidence_levels := by
  intro sin ain z s a e hz hs ha hcalc
  apply mem_identify_matches_iff.mpr
  refine ⟨z, hz, s, hs, a, ha, ?_⟩
  unfold score_pair
  rw [show (if false then no_name_weights else default_weights) =
    default_weights from rfl, hcalc]

/-- Witness for C8: a concrete raising pair whose null-score candidate
appears in the result. -/
theorem C8_per_pair_failure_recorded_witness :
    ((Val.str "") ∈ zipCodes (shopRestricted emptyZipShopFrame false)
        (amazRestricted emptyZipAmazFrame false) ∧
      Row.restrict emptyZipShopFrame.headI ("shopify_id" :: filtered_cols false) ∈
        block (shopRestricted emptyZipShopFrame false) (Val.str "") ∧
      Row.restrict emptyZipAmazFrame.headI ("amazon_id" :: filtered_cols false) ∈
        block (amazRestricted emptyZipAmazFrame false) (Val.str "") ∧
      calculate_match_score
        (Row.restrict emptyZipShopFrame.headI ("shopify_id" :: filtered_cols false))
        (Row.restrict emptyZipAmazFrame.headI ("amazon_id" :: filtered_cols false))
        default_weights = .error ()) ∧
    (⟨Row.getD (Row.restrict emptyZipShopFrame.headI
          ("shopify_id" :: filtered_cols false)) "shopify_id",
      Row.getD (Row.restrict emptyZipAmazFrame.headI
          ("amazon_id" :: filtered_cols false)) "amazon_id",
      none, none⟩ : Candidate) ∈
      identify_matches emptyZipShopFrame emptyZipAmazFrame false
        potential_match_score_threshold confidence_levels := by
  refine ⟨⟨by decide, by decide, by decide, by decide⟩, ?_⟩
  exact C8_per_pair_failure_recorded emptyZipShopFrame emptyZipAmazFrame
    (Val.str "") _ _ () (by decide) (by decide) (by decide) (by decide)

/-- A fuzzily scored field whose cells are Python-equal scores 100: the
library's equivalence guard, regardless of emptiness or type. -/
theorem fieldSim_fuzzy_pyEq {s a : Row} {f : String}
    (hf : f ∉ exact_match_fields)
    (h : pyEq (Row.getD s f) (Row.getD a f) = true) :
    fieldSim f (Row.getD s f) (Row.getD a f) = .ok 100 := by
  unfold fieldSim
  rw [if_neg hf]
  unfold fuzzScoreV
  rw [if_pos h]

/-- An exactly compared field with Python-equal cells scores 100. -/
theorem fieldSim_exact_eq {s a : Row} {f : String}
    (hf : f ∈ exact_match_fields)
    (h : pyEq (Row.getD s f) (Row.getD a f) = true) :
    fieldSim f (Row.getD s f) (Row.getD a f) = .ok 100 := by
  unfold fieldSim
  rw [if_pos hf, if_pos h]

/-- **C9 (counterexample).**  Two records that differ only in the name
fields (similar but unequal last and first names) and agree — nonempty —
everywhere else score **lower** under `no_name_weights` (85.71) than
under `default_weights` (87.50): the name similarity the default table
still credits (0.25 × 0.90 + …) outweighs the redistributed weight. -/
theorem C9_counterexample_similar_names :
    (∀ c ∈ matchable_columns, c ∉ fields_to_remove →
      Row.getD nearNameShopRecord c = Row.getD nearNameAmazRecord c) ∧
    Row.getD nearNameShopRecord "last_name" ≠ Row.getD nearNameAmazRecord "last_name" ∧
    Row.getD nearNameShopRecord "first_name" ≠ Row.getD nearNameAmazRecord "first_name" ∧
    calculate_match_score nearNameShopRecord nearNameAmazRecord default_weights =
      .ok 8750 ∧
    calculate_match_score nearNameShopRecord nearNameAmazRecord no_name_weights =
      .ok 8571 ∧
    ¬ (8750 < 8571) := by
  decide

/-- **C9 (amended).**  For two records agreeing (Python-equal cells —
empty strings included, so the house-number veto passes via the
equivalence guard) on every non-name weighted field, whose name
similarities `lnS`, `fnS` carry a weighted credit below the score gap
(`0.25·lnS + 0.04·fnS ≤ 20.70` points, i.e. `25*lnS + 4*fnS ≤ 2070` on
this scale — in particular completely dissimilar names), the
`no_name_weights` score is exactly 85.71 and is strictly higher than
the `default_weights` score of `round(65.00 + credit, 2) ≤ 85.70`.
The bound is sharp: with credit ≥ 20.71 (e.g. the counterexample's
similar names) the default score reaches 85.71 or more. -/
theorem C9_no_name_higher_when_dissimilar (s a : Row) (lnS fnS : ℕ)
    (h_un : pyEq (Row.getD s "unit_number") (Row.getD a "unit_number") = true)
    (h_sn : pyEq (Row.getD s "street_name") (Row.getD a "street_name") = true)
    (h_hn : pyEq (Row.getD s "house_number") (Row.getD a "house_number") = true)
    (h_st : pyEq (Row.getD s "state") (Row.getD a "state") = true)
    (h_ci : pyEq (Row.getD s "city") (Row.getD a "city") = true)
    (h_sty : pyEq (Row.getD s "street_type") (Row.getD a "street_type") = true)
    (h_uty : pyEq (Row.getD s "unit_type") (Row.getD a "unit_type") = true)
    (h_ln : fuzzScoreV (Row.getD s "last_name") (Row.getD a "last_name") = .ok lnS)
    (h_fn : fuzzScoreV (Row.getD s "first_name") (Row.getD a "first_name") = .ok fnS)
    (h_bound : 25 * lnS + 4 * fnS ≤ 2070) :
    calculate_match_score s a default_weights =
      .ok (halfRoundEven (650000 + 2500 * lnS + 400 * fnS) 100) ∧
    halfRoundEven (650000 + 2500 * lnS + 400 * fnS) 100 < 8571 ∧
    calculate_match_score s a no_name_weights = .ok 8571 := by
  have e_ln : fieldSim "last_name" (Row.getD s "last_name")
      (Row.getD a "last_name") = .ok lnS := by
    unfold fieldSim
    rw [if_neg (by decide)]
    exact h_ln
  have e_fn : fieldSim "first_name" (Row.getD s "first_name")
      (Row.getD a "first_name") = .ok fnS := by
    unfold fieldSim
    rw [if_neg (by decide)]
    exact h_fn
  have e_un := fieldSim_fuzzy_pyEq (by decide) h_un
  have e_sn := fieldSim_fuzzy_pyEq (by decide) h_sn
  have e_hn := fieldSim_fuzzy_pyEq (by decide) h_hn
  have e_ci := fieldSim_fuzzy_pyEq (by decide) h_ci
  have e_st := fieldSim_exact_eq (by decide) h_st
  have e_sty := fieldSim_exact_eq (by decide) h_sty
  have e_uty := fieldSim_exact_eq (by decide) h_uty
  have e_house : fuzzScoreV (Row.getD s "house_number")
      (Row.getD a "house_number") = .ok 100 := by
    unfold fuzzScoreV
    rw [if_pos h_hn]
  refine ⟨?_, ?_, ?_⟩
  · simp only [calculate_match_score, default_weights, List.foldlM_cons,
      List.foldlM_nil, e_ln, e_fn, e_un, e_sn, e_hn, e_ci, e_st, e_sty, e_uty,
      e_house, bind, Except.bind, pure, Except.pure]
    rw [if_neg (by norm_num : ¬ (100 : ℕ) < 70)]
    exact congrArg (fun n => Except.ok (halfRoundEven n 100)) (by ring)
  · have hm : 650000 + 2500 * lnS + 400 * fnS =
        100 * (6500 + 25 * lnS + 4 * fnS) := by ring
    rw [hm]
    unfold halfRoundEven
    rw [Nat.mul_mod_right, Nat.mul_div_cancel_left _ (by norm_num : (0:ℕ) < 100)]
    norm_num
    omega
  · simp only [calculate_match_score, no_name_weights, List.foldlM_cons,
      List.foldlM_nil, e_un, e_sn, e_hn, e_ci, e_st, e_sty, e_uty,
      e_house, bind, Except.bind, pure, Except.pure]
    norm_num [halfRoundEven]

/-- Witness for C9: fully dissimilar names over matching address
fields. -/
theorem C9_no_name_higher_when_dissimilar_witness :
    (pyEq (Row.getD dissimShopRecord "unit_number")
        (Row.getD dissimAmazRecord "unit_number") = true ∧
      pyEq (Row.getD dissimShopRecord "street_name")
        (Row.getD dissimAmazRecord "street_name") = true ∧
      pyEq (Row.getD dissimShopRecord "house_number")
        (Row.getD dissimAmazRecord "house_number") = true ∧
      pyEq (Row.getD dissimShopRecord "state")
        (Row.getD dissimAmazRecord "state") = true ∧
      pyEq (Row.getD dissimShopRecord "city")
        (Row.getD dissimAmazRecord "city") = true ∧
      pyEq (Row.getD dissimShopRecord "street_type")
        (Row.getD dissimAmazRecord "street_type") = true ∧
      pyEq (Row.getD dissimShopRecord "unit_type")
        (Row.getD dissimAmazRecord "unit_type") = true ∧
      fuzzScoreV (Row.getD dissimShopRecord "last_name")
        (Row.getD dissimAmazRecord "last_name") = .ok 0 ∧
      fuzzScoreV (Row.getD dissimShopRecord "first_name")
        (Row.getD dissimAmazRecord "first_name") = .ok 0 ∧
      25 * 0 + 4 * 0 ≤ 2070) ∧
    (calculate_match_score dissimShopRecord dissimAmazRecord default_weights =
        .ok (halfRoundEven (650000 + 2500 * 0 + 400 * 0) 100) ∧
      halfRoundEven (650000 + 2500 * 0 + 400 * 0) 100 < 8571 ∧
      calculate_match_score dissimShopRecord dissimAmazRecord no_name_weights =
        .ok 8571) := by
  refine ⟨⟨by decide, by decide, by decide, by decide, by decide, by decide,
    by decide, by decide, by decide, by decide⟩, ?_⟩
  exact C9_no_name_higher_when_dissimilar dissimShopRecord dissimAmazRecord 0 0
    (by decide) (by decide) (by decide) (by decide) (by decide) (by decide)
    (by decide) (by decide) (by decide) (by decide)

/-- A filter with at most one survivor is the first match. -/
theorem filter_eq_find?_toList {α : Type} (p : α → Bool) :
    ∀ l : List α, (l.filter p).length ≤ 1 → l.filter p = (l.find? p).toList := by
  intro l
  induction l with
  | nil => intro _; rfl
  | cons a t ih =>
    intro h
    by_cases hpa : p a = true
    · have hf : (a :: t).filter p = a :: t.filter p := by
        simp [List.filter_cons, hpa]
      rw [hf] at h ⊢
      have ht : t.filter p = [] := by
        simp only [List.length_cons] at h
        exact List.length_eq_zero.mp (by omega)
      rw [ht]
      simp [List.find?_cons, hpa]
    · have hf : (a :: t).filter p = t.filter p := by
        simp [List.filter_cons, hpa]
      rw [hf] at h ⊢
      rw [show (a :: t).find? p = t.find? p from by simp [List.find?_cons, hpa]]
      exact ih h

/-- A `flatMap` whose body always yields a singleton is a `map`. -/
theorem flatMap_eq_map_of_singleton {α β : Type} (f : α → List β) (g : α → β) :
    ∀ l : List α, (∀ x ∈ l, f x = [g x]) → l.flatMap f = l.map g := by
  intro l
  induction l with
  | nil => intro _; rfl
  | cons a t ih =>
    intro h
    rw [show (a :: t).flatMap f = f a ++ t.flatMap f from rfl,
      h a (List.mem_cons_self _ _), ih (fun x hx => h x (List.mem_cons_of_mem _ hx))]
    rfl

/-- With a unique right key, each left row of `DF.mergeOn` produces
exactly the single `joinOneOn` row. -/
theorem mergeOn_rows {l r : DF} {key : String} (h : AtMostOneKey r key) :
    (DF.mergeOn l r key).rows = l.rows.map (fun lr => joinOneOn lr r key) := by
  apply flatMap_eq_map_of_singleton
  intro lr _
  have heq := filter_eq_find?_toList
    (fun rr => pyEq (Row.getD rr key) (Row.getD lr key)) r.rows
    (h (Row.getD lr key))
  unfold joinOneOn
  cases hfind : r.rows.find? (fun rr => pyEq (Row.getD rr key) (Row.getD lr key)) with
  | none =>
    rw [hfind] at heq
    rw [heq]
    rfl
  | some rr =>
    rw [hfind] at heq
    rw [heq]
    rfl

/-- Every index produced by `enumFrom k` is at least `k`. -/
theorem enumFrom_fst_ge {α : Type} :
    ∀ (t : List α) (k : ℕ) (p : ℕ × α), p ∈ List.enumFrom k t → k ≤ p.1 := by
  intro t
  induction t with
  | nil =>
    intro k p hp
    simp [List.enumFrom] at hp
  | cons a t ih =>
    intro k p hp
    rw [show List.enumFrom k (a :: t) = (k, a) :: List.enumFrom (k + 1) t from rfl] at hp
    rcases List.mem_cons.mp hp with h | h
    · subst h
      exact le_refl k
    · exact le_trans (Nat.le_succ k) (ih (k + 1) p h)

/-- A value equal (Python-wise) to a numeric cell is that cell. -/
theorem pyEq_num_right {v : Val} {k : ℤ} (h : pyEq v (Val.num k) = true) :
    v = Val.num k := by
  cases v <;> simp_all [pyEq]

/-- The positional index matches at most one `enumFrom` entry. -/
theorem enumFrom_filter_num_le_one {v : Val} :
    ∀ (t : List Row) (k : ℕ),
      ((List.enumFrom k t).filter (fun p => pyEq v (Val.num p.1))).length ≤ 1 := by
  intro t
  induction t with
  | nil => intro k; simp [List.enumFrom]
  | cons r t ih =>
    intro k
    rw [show List.enumFrom k (r :: t) = (k, r) :: List.enumFrom (k + 1) t from rfl,
      List.filter_cons]
    by_cases hv : pyEq v (Val.num k) = true
    · rw [if_pos (by simpa using hv)]
      have hrest : (List.enumFrom (k + 1) t).filter
          (fun p => pyEq v (Val.num p.1)) = [] := by
        apply List.filter_eq_nil_iff.mpr
        intro p hp
        have hk := enumFrom_fst_ge t (k + 1) p hp
        have hvk := pyEq_num_right hv
        subst hvk
        simp only [pyEq, beq_iff_eq, Bool.not_eq_true, decide_eq_false_iff_not]
        intro hcontra
        have : (k : ℤ) = (p.1 : ℤ) := by exact_mod_cast hcontra
        omega
      rw [hrest]
      simp
    · rw [if_neg (by simpa using hv)]
      exact ih (k + 1)

/-- Each left row of `DF.mergeOnIndex` produces exactly the single
`joinOneOnIndex` row: positional indexes are unique by construction. -/
theorem mergeOnIndex_rows (l r : DF) (key : String) :
    (DF.mergeOnIndex l r key).rows =
      l.rows.map (fun lr => joinOneOnIndex lr r key) := by
  apply flatMap_eq_map_of_singleton
  intro lr _
  have hlen : ((r.rows.enum).filter
      (fun p => pyEq (Row.getD lr key) (Val.num p.1))).length ≤ 1 := by
    rw [show r.rows.enum = List.enumFrom 0 r.rows from rfl]
    exact enumFrom_filter_num_le_one r.rows 0
  have heq := filter_eq_find?_toList
    (fun p => pyEq (Row.getD lr key) (Val.num p.1)) r.rows.enum hlen
  unfold joinOneOnIndex
  cases hfind : (r.rows.enum).find? (fun p => pyEq (Row.getD lr key) (Val.num p.1)) with
  | none =>
    rw [hfind] at heq
    rw [heq]
    rfl
  | some pr =>
    rw [hfind] at heq
    rw [heq]
    rfl

/-- **C10 (counterexample).**  With a shopify record at positional index
0 whose `shopify_id` column is 5, the stitched row's tokenization-debug
columns are NaN although the record *identified by* the candidate's
`shopify_id` has `street_name = "MAIN"`: the token merge joins on the
right frame's positional index, not on its `shopify_id` column. -/
theorem C10_counterexample_token_join :
    stitchCand.shopify_id = Val.num 5 ∧
    (stitchShopFrame.rows.filter
        (fun r => pyEq (Row.getD r "shopify_id") (Val.num 5))).map
      (fun r => Row.getD r "street_name") = [Val.str "MAIN"] ∧
    ((stitch_identified_data stitchShopFrame stitchAmazFrame [stitchCand]
        false).rows).map (fun r => Row.getD r "street_name_addy_token") =
      [Val.nan] ∧
    Val.nan ≠ Val.str "MAIN" := by
  decide

/-- **C10 (amended).**  When each source id identifies at most one
filtered record, the stitcher emits exactly one row per candidate, in
candidate order; each row is `stitchRowFor`: the candidate's columns,
the id-joined non-matchable columns of each source (suffixed), and the
tokenization-debug matchable columns taken from the shopify row whose
**positional index** equals the candidate's `shopify_id` value
(NaN-filled when no position matches) — with `score` as leading column. -/
theorem C10_stitch_rows (shopify amazon : DF) (ms : List Candidate) (nn : Bool)
    (h1 : AtMostOneKey (shopifyFiltered shopify nn) "shopify_id")
    (h2 : AtMostOneKey (amazonFiltered amazon nn) "amazon_id") :
    (stitch_identified_data shopify amazon ms nn).rows =
      ms.map (stitchRowFor shopify amazon nn) ∧
    (stitch_identified_data shopify amazon ms nn).cols =
      "score" :: (stitchedCols shopify amazon nn).filter
        (fun c => decide (c ≠ "score")) := by
  have hcols : ((((matchesDF ms).mergeOn (shopifyFiltered shopify nn)
      "shopify_id").mergeOn (amazonFiltered amazon nn)
      "amazon_id").mergeOnIndex (shopifyAddy shopify) "shopify_id").cols =
      stitchedCols shopify amazon nn := by
    simp [DF.mergeOn, DF.mergeOnIndex, matchesDF, stitchedCols,
      List.append_assoc]
  constructor
  · simp only [stitch_identified_data, DF.selectCols]
    rw [hcols]
    rw [mergeOnIndex_rows, mergeOn_rows h2, mergeOn_rows h1]
    simp only [matchesDF, List.map_map]
    rfl
  · simp only [stitch_identified_data, DF.selectCols]
    rw [hcols]

/-- Witness for C10: the concrete frames and candidate satisfy the
uniqueness hypotheses, and the stitched output is the single
`stitchRowFor` row. -/
theorem C10_stitch_rows_witness :
    (AtMostOneKey (shopifyFiltered stitchShopFrame false) "shopify_id" ∧
      AtMostOneKey (amazonFiltered stitchAmazFrame false) "amazon_id") ∧
    (stitch_identified_data stitchShopFrame stitchAmazFrame [stitchCand]
        false).rows =
      [stitchCand].map (stitchRowFor stitchShopFrame stitchAmazFrame false) := by
  have h1 : AtMostOneKey (shopifyFiltered stitchShopFrame false) "shopify_id" := by
    intro v
    have : (shopifyFiltered stitchShopFrame false).rows.length = 1 := by decide
    have hle := List.length_filter_le
      (fun rr => pyEq (Row.getD rr "shopify_id") v)
      (shopifyFiltered stitchShopFrame false).rows
    omega
  have h2 : AtMostOneKey (amazonFiltered stitchAmazFrame false) "amazon_id" := by
    intro v
    have : (amazonFiltered stitchAmazFrame false).rows.length = 1 := by decide
    have hle := List.length_filter_le
      (fun rr => pyEq (Row.getD rr "amazon_id") v)
      (amazonFiltered stitchAmazFrame false).rows
    omega
  exact ⟨⟨h1, h2⟩,
    (C10_stitch_rows stitchShopFrame stitchAmazFrame [stitchCand] false h1 h2).1⟩

end AddressMatcher
